import Mathlib

/-
Shallow embedding of the Razer battery monitor core
(src/src/services/usb-worker.ts and the RazerBatteryService host layer).

Byte buffers are modelled as List Nat, with each element intended to be a
byte value below 256.  Battery percentages with one decimal digit are
modelled in tenths of a percent (so 50.2 percent is the natural number 502):
the source computes parseFloat((raw / 255 * 100).toFixed(1)), and for every
raw byte 0..255 the rational raw * 1000 / 255 is never exactly halfway
between two integers, so rounding to the nearest integer number of tenths
is exact and independent of the floating point tie-breaking rule.
-/

namespace RazerBattery

/-- Catalogue metadata for one product id, as in the RAZER_MICE and
RAZER_KEYBOARDS tables of usb-worker.ts. -/
structure DeviceInfo where
  name : String
  transactionId : Nat
  hasWireless : Bool
deriving DecidableEq, Repr

/-- The RAZER_MICE table of usb-worker.ts, in source order. -/
def RAZER_MICE : List (Nat × DeviceInfo) := [
  (0x0078, { name := "Razer Viper", transactionId := 0x3f, hasWireless := false }),
  (0x007A, { name := "Razer Viper Ultimate (Wired)", transactionId := 0x3f, hasWireless := true }),
  (0x007B, { name := "Razer Viper Ultimate (Wireless)", transactionId := 0x3f, hasWireless := true }),
  (0x008A, { name := "Razer Viper Mini", transactionId := 0x1f, hasWireless := false }),
  (0x0091, { name := "Razer Viper 8K", transactionId := 0x1f, hasWireless := false }),
  (0x009E, { name := "Razer Viper Mini SE (Wired)", transactionId := 0x1f, hasWireless := true }),
  (0x009F, { name := "Razer Viper Mini SE (Wireless)", transactionId := 0x1f, hasWireless := true }),
  (0x00A5, { name := "Razer Viper V2 Pro (Wired)", transactionId := 0x1f, hasWireless := true }),
  (0x00A6, { name := "Razer Viper V2 Pro (Wireless)", transactionId := 0x1f, hasWireless := true }),
  (0x00B8, { name := "Razer Viper V3 HyperSpeed", transactionId := 0x1f, hasWireless := true }),
  (0x00C0, { name := "Razer Viper V3 Pro (Wired)", transactionId := 0x1f, hasWireless := true }),
  (0x00C1, { name := "Razer Viper V3 Pro (Wireless)", transactionId := 0x1f, hasWireless := true }),
  (0x007C, { name := "Razer DeathAdder V2 Pro (Wired)", transactionId := 0x3f, hasWireless := true }),
  (0x007D, { name := "Razer DeathAdder V2 Pro (Wireless)", transactionId := 0x3f, hasWireless := true }),
  (0x0084, { name := "Razer DeathAdder V2", transactionId := 0x1f, hasWireless := false }),
  (0x008C, { name := "Razer DeathAdder V2 Mini", transactionId := 0x1f, hasWireless := false }),
  (0x0098, { name := "Razer DeathAdder Essential (2021)", transactionId := 0x1f, hasWireless := false }),
  (0x009C, { name := "Razer DeathAdder V2 X HyperSpeed", transactionId := 0x1f, hasWireless := true }),
  (0x00A1, { name := "Razer DeathAdder V2 Lite", transactionId := 0x1f, hasWireless := false }),
  (0x00B2, { name := "Razer DeathAdder V3", transactionId := 0x1f, hasWireless := false }),
  (0x00B6, { name := "Razer DeathAdder V3 Pro (Wired)", transactionId := 0x1f, hasWireless := true }),
  (0x00B7, { name := "Razer DeathAdder V3 Pro (Wireless)", transactionId := 0x1f, hasWireless := true }),
  (0x00C2, { name := "Razer DeathAdder V3 Pro (Wired Alt)", transactionId := 0x1f, hasWireless := true }),
  (0x00C3, { name := "Razer DeathAdder V3 Pro (Wireless Alt)", transactionId := 0x1f, hasWireless := true }),
  (0x00C4, { name := "Razer DeathAdder V3 HyperSpeed (Wired)", transactionId := 0x1f, hasWireless := true }),
  (0x00C5, { name := "Razer DeathAdder V3 HyperSpeed (Wireless)", transactionId := 0x1f, hasWireless := true }),
  (0x0064, { name := "Razer Basilisk", transactionId := 0x1f, hasWireless := false }),
  (0x0083, { name := "Razer Basilisk X HyperSpeed", transactionId := 0x1f, hasWireless := true }),
  (0x0085, { name := "Razer Basilisk V2", transactionId := 0x1f, hasWireless := false }),
  (0x0086, { name := "Razer Basilisk Ultimate (Wired)", transactionId := 0x1f, hasWireless := true }),
  (0x0088, { name := "Razer Basilisk Ultimate (Receiver)", transactionId := 0x1f, hasWireless := true }),
  (0x0099, { name := "Razer Basilisk V3", transactionId := 0x1f, hasWireless := false }),
  (0x00AA, { name := "Razer Basilisk V3 Pro (Wired)", transactionId := 0x1f, hasWireless := true }),
  (0x00AB, { name := "Razer Basilisk V3 Pro (Wireless)", transactionId := 0x1f, hasWireless := true }),
  (0x00B9, { name := "Razer Basilisk V3 X HyperSpeed", transactionId := 0x1f, hasWireless := true }),
  (0x00CB, { name := "Razer Basilisk V3 35K", transactionId := 0x1f, hasWireless := false }),
  (0x00CC, { name := "Razer Basilisk V3 Pro 35K (Wired)", transactionId := 0x1f, hasWireless := true }),
  (0x00CD, { name := "Razer Basilisk V3 Pro 35K (Wireless)", transactionId := 0x1f, hasWireless := true }),
  (0x008F, { name := "Razer Naga Pro (Wired)", transactionId := 0x1f, hasWireless := true }),
  (0x0090, { name := "Razer Naga Pro (Wireless)", transactionId := 0x1f, hasWireless := true }),
  (0x0096, { name := "Razer Naga X", transactionId := 0x1f, hasWireless := false }),
  (0x00A7, { name := "Razer Naga V2 Pro (Wired)", transactionId := 0x1f, hasWireless := true }),
  (0x00A8, { name := "Razer Naga V2 Pro (Wireless)", transactionId := 0x1f, hasWireless := true }),
  (0x00B4, { name := "Razer Naga V2 HyperSpeed (Receiver)", transactionId := 0x1f, hasWireless := true }),
  (0x00A3, { name := "Razer Cobra", transactionId := 0x1f, hasWireless := false }),
  (0x00AF, { name := "Razer Cobra Pro (Wired)", transactionId := 0x1f, hasWireless := true }),
  (0x00B0, { name := "Razer Cobra Pro (Wireless)", transactionId := 0x1f, hasWireless := true }),
  (0x0094, { name := "Razer Orochi V2 (Receiver)", transactionId := 0x1f, hasWireless := true }),
  (0x0095, { name := "Razer Orochi V2 (Bluetooth)", transactionId := 0x1f, hasWireless := true }),
  (0x0077, { name := "Razer Pro Click (Receiver)", transactionId := 0x1f, hasWireless := true }),
  (0x0080, { name := "Razer Pro Click (Wired)", transactionId := 0x1f, hasWireless := true }),
  (0x009A, { name := "Razer Pro Click Mini (Receiver)", transactionId := 0x1f, hasWireless := true }),
  (0x00A4, { name := "Razer Mouse Dock Pro", transactionId := 0x1f, hasWireless := false }),
  (0x00B3, { name := "Razer HyperPolling Wireless Dongle", transactionId := 0x1f, hasWireless := true })]

/-- The RAZER_KEYBOARDS table of usb-worker.ts, in source order. -/
def RAZER_KEYBOARDS : List (Nat × DeviceInfo) := [
  (0x024E, { name := "Razer BlackWidow V3", transactionId := 0x1f, hasWireless := false }),
  (0x025A, { name := "Razer BlackWidow V3 Pro (Wired)", transactionId := 0x1f, hasWireless := true }),
  (0x025C, { name := "Razer BlackWidow V3 Pro (Wireless)", transactionId := 0x9f, hasWireless := true }),
  (0x0258, { name := "Razer BlackWidow V3 Mini", transactionId := 0x1f, hasWireless := false }),
  (0x0271, { name := "Razer BlackWidow V3 Mini (Wireless)", transactionId := 0x9f, hasWireless := true }),
  (0x0A24, { name := "Razer BlackWidow V3 TK", transactionId := 0x1f, hasWireless := false }),
  (0x0287, { name := "Razer BlackWidow V4", transactionId := 0x1f, hasWireless := false }),
  (0x028D, { name := "Razer BlackWidow V4 Pro", transactionId := 0x1f, hasWireless := false }),
  (0x0293, { name := "Razer BlackWidow V4 X", transactionId := 0x1f, hasWireless := false }),
  (0x02A5, { name := "Razer BlackWidow V4 75%", transactionId := 0x1f, hasWireless := false }),
  (0x0290, { name := "Razer DeathStalker V2 Pro (Wireless)", transactionId := 0x9f, hasWireless := true }),
  (0x0292, { name := "Razer DeathStalker V2 Pro (Wired)", transactionId := 0x1f, hasWireless := true }),
  (0x0295, { name := "Razer DeathStalker V2", transactionId := 0x1f, hasWireless := false }),
  (0x0296, { name := "Razer DeathStalker V2 Pro TKL (Wireless)", transactionId := 0x9f, hasWireless := true }),
  (0x0298, { name := "Razer DeathStalker V2 Pro TKL (Wired)", transactionId := 0x1f, hasWireless := true }),
  (0x0226, { name := "Razer Huntsman Elite", transactionId := 0x1f, hasWireless := false }),
  (0x0227, { name := "Razer Huntsman", transactionId := 0x1f, hasWireless := false }),
  (0x0243, { name := "Razer Huntsman Tournament Edition", transactionId := 0x1f, hasWireless := false }),
  (0x0257, { name := "Razer Huntsman Mini", transactionId := 0x1f, hasWireless := false }),
  (0x0266, { name := "Razer Huntsman V2 Analog", transactionId := 0x1f, hasWireless := false }),
  (0x026B, { name := "Razer Huntsman V2 Tenkeyless", transactionId := 0x1f, hasWireless := false }),
  (0x026C, { name := "Razer Huntsman V2", transactionId := 0x1f, hasWireless := false }),
  (0x0282, { name := "Razer Huntsman Mini Analog", transactionId := 0x1f, hasWireless := false }),
  (0x02A6, { name := "Razer Huntsman V3 Pro", transactionId := 0x1f, hasWireless := false }),
  (0x02A7, { name := "Razer Huntsman V3 Pro TKL", transactionId := 0x1f, hasWireless := false }),
  (0x021E, { name := "Razer Ornata Chroma", transactionId := 0x1f, hasWireless := false }),
  (0x025D, { name := "Razer Ornata V2", transactionId := 0x1f, hasWireless := false }),
  (0x02A1, { name := "Razer Ornata V3", transactionId := 0x1f, hasWireless := false }),
  (0x02A3, { name := "Razer Ornata V3 Tenkeyless", transactionId := 0x1f, hasWireless := false }),
  (0x0294, { name := "Razer Ornata V3 X", transactionId := 0x1f, hasWireless := false })]

/-- RAZER_PRODUCTS combines both tables (the key sets are disjoint, so the
object spread of the source is plain concatenation). -/
def RAZER_PRODUCTS : List (Nat × DeviceInfo) := RAZER_MICE ++ RAZER_KEYBOARDS

/-- Catalogue lookup, the read of RAZER_PRODUCTS[productId] in the source. -/
def lookupProduct (productId : Nat) : Option DeviceInfo :=
  (RAZER_PRODUCTS.find? (fun e => e.1 == productId)).map (fun e => e.2)

/-- isKeyboardDevice of usb-worker.ts: membership in the keyboards table. -/
def isKeyboardDevice (productId : Nat) : Bool :=
  (RAZER_KEYBOARDS.find? (fun e => e.1 == productId)).isSome

/-- WIRELESS_DEVICES of usb-worker.ts: the product ids whose catalogue entry
has hasWireless set. -/
def WIRELESS_DEVICES : List Nat :=
  (RAZER_PRODUCTS.filter (fun e => e.2.hasWireless)).map (fun e => e.1)

/-- The 8-byte header of createRazerRequest in usb-worker.ts. -/
def razerHeader (transactionTag command : Nat) : List Nat :=
  [0x00, transactionTag, 0x00, 0x00, 0x00, 0x02, 0x07, command]

/-- The crc loop of createRazerRequest: XOR of the header bytes from index 2,
starting from 0. -/
def razerCrc (transactionTag command : Nat) : Nat :=
  ((razerHeader transactionTag command).drop 2).foldl Nat.xor 0

/-- The 90-byte frame assembled by createRazerRequest: header, 80 zero
payload bytes, crc byte, and a final zero byte. -/
def razerFrame (transactionTag command : Nat) : List Nat :=
  razerHeader transactionTag command ++ List.replicate 80 0 ++
    [razerCrc transactionTag command, 0]

/-- createRazerRequest of usb-worker.ts.  The source reads the transaction
tag from RAZER_PRODUCTS; an unknown product id would dereference undefined
and throw, which is modelled by returning none. -/
def createRazerRequest (productId command : Nat) : Option (List Nat) :=
  (lookupProduct productId).map (fun info => razerFrame info.transactionId command)

/-- BatteryResult of usb-worker.ts.  batteryLevel is in tenths of a percent
(none when the level is unavailable or unreliable). -/
structure BatteryResult where
  batteryLevel : Option Nat
  isCharging : Bool
  deviceName : String
  productId : Nat
deriving DecidableEq, Repr

/-- The scaling parseFloat((raw / 255 * 100).toFixed(1)) of the source,
expressed in tenths of a percent: the integer nearest to raw * 1000 / 255,
which is floor((400 * raw + 51) / 102).  No value of raw in 0..255 lands
exactly halfway between two tenths, so this matches the source for every
byte regardless of the floating point tie-breaking rule. -/
def scaleBattery (raw : Nat) : Nat :=
  (400 * raw + 51) / 102

/-- getBatteryFromKeyboard of usb-worker.ts, given the transport response to
each issued command: a single battery request (command 0x80) is sent, the
response format byte selects the decode, and the list of issued command
bytes is returned alongside the result.  Responses shorter than 10 bytes
(including a missing data field) yield none. -/
def getBatteryFromKeyboard (name : String) (productId : Nat)
    (respond : Nat → List Nat) : Option BatteryResult × List Nat :=
  let resp := respond 0x80
  if 10 ≤ resp.length then
    if resp.getD 0 0 = 0x04 then
      (some { batteryLevel := none, isCharging := true,
              deviceName := name, productId := productId }, [0x80])
    else
      (some { batteryLevel := some (scaleBattery (resp.getD 9 0)), isCharging := false,
              deviceName := name, productId := productId }, [0x80])
  else
    (none, [0x80])

/-- The possible results of one sendRazerBatteryCommand transport exchange:
a response buffer, a throw whose message marks the device as gone
(LIBUSB_ERROR_NO_DEVICE, LIBUSB_ERROR_NOT_FOUND, open error), or any other
throw. -/
inductive USBReply where
  | ok (bytes : List Nat)
  | usbErr
  | otherErr
deriving DecidableEq, Repr

/-- Pops the next scripted transport reply; an exhausted script behaves as a
generic throw. -/
def nextReply (replies : List USBReply) : USBReply × List USBReply :=
  match replies with
  | r :: rest => (r, rest)
  | [] => (USBReply.otherErr, [])

/-- Decoding of the charging-status response (command 0x84) in
tryMouseBatteryWithInterface: charging only when the reply has at least 10
bytes, status byte 0x02, and byte 9 equal to 1; any throw is caught and
charging defaults to false. -/
def chargingFromReply (r : USBReply) : Bool :=
  match r with
  | USBReply.ok cb =>
      if 10 ≤ cb.length ∧ cb.getD 0 0 = 0x02 then cb.getD 9 0 == 1 else false
  | _ => false

/-- The per-byte heuristic of the Viper Ultimate wired-mode fallback in
tryMouseBatteryWithInterface: a value up to 100 is a direct percentage, a
value up to 255 is scaled from 0..255, anything larger leaves the level 0
(and is therefore skipped by the scan). -/
def interpFallbackByte (v : Nat) : Nat :=
  if v ≤ 100 then v * 10 else if v ≤ 255 then scaleBattery v else 0

/-- The fallback scan of tryMouseBatteryWithInterface: walk response bytes
from position 8 up to (exclusive) the smaller of the length and 16, and
return the first interpreted level that is positive, from a byte that is
itself positive. -/
def scanFallback (bytes : List Nat) : Option Nat :=
  ((bytes.take 16).drop 8).findSome? (fun v =>
    if 0 < v then
      if 0 < interpFallbackByte v then some (interpFallbackByte v) else none
    else none)

/-- What one mouse battery query exchange can produce: a result value
(possibly none) or an uncaught USBDeviceError. -/
inductive MouseOutcome where
  | result (r : Option BatteryResult)
  | deviceError
deriving DecidableEq, Repr

/-- A run of tryMouseBatteryWithInterface: its outcome and the command bytes
it sent, in order. -/
structure MouseRun where
  outcome : MouseOutcome
  commands : List Nat
deriving DecidableEq, Repr

/-- tryMouseBatteryWithInterface of usb-worker.ts, over a script of
transport replies consumed in call order.  A throw from the first battery
command is re-classified (usbErr becomes an uncaught USBDeviceError, any
other throw is swallowed into none); a throw from the in-place retry or
from the charging command is caught where it occurs.  The Viper Ultimate
wired-mode fallback scan runs only when the first response carries status
0x05 and the product id is 0x007A, using the original response bytes. -/
def tryMouseBatteryWithInterface (name : String) (productId : Nat)
    (replies : List USBReply) : MouseRun :=
  match nextReply replies with
  | (USBReply.usbErr, _) => { outcome := MouseOutcome.deviceError, commands := [0x80] }
  | (USBReply.otherErr, _) => { outcome := MouseOutcome.result none, commands := [0x80] }
  | (USBReply.ok b, rs1) =>
    if 10 ≤ b.length then
      if b.getD 0 0 = 0x02 then
        match nextReply rs1 with
        | (r2, _) =>
          { outcome := MouseOutcome.result (some
              { batteryLevel := some (scaleBattery (b.getD 9 0)),
                isCharging := chargingFromReply r2,
                deviceName := name, productId := productId }),
            commands := [0x80, 0x84] }
      else if b.getD 0 0 = 0x01 then
        match nextReply rs1 with
        | (USBReply.ok rb, rs2) =>
          if 10 ≤ rb.length ∧ rb.getD 0 0 = 0x02 then
            match nextReply rs2 with
            | (r3, _) =>
              { outcome := MouseOutcome.result (some
                  { batteryLevel := some (scaleBattery (rb.getD 9 0)),
                    isCharging := chargingFromReply r3,
                    deviceName := name, productId := productId }),
                commands := [0x80, 0x80, 0x84] }
          else
            { outcome := MouseOutcome.result none, commands := [0x80, 0x80] }
        | (_, _) =>
          { outcome := MouseOutcome.result none, commands := [0x80, 0x80] }
      else
        if productId = 0x007A ∧ b.getD 0 0 = 0x05 then
          match scanFallback b with
          | some lv =>
            { outcome := MouseOutcome.result (some
                { batteryLevel := some lv, isCharging := true,
                  deviceName := name, productId := productId }),
              commands := [0x80] }
          | none => { outcome := MouseOutcome.result none, commands := [0x80] }
        else
          { outcome := MouseOutcome.result none, commands := [0x80] }
    else
      { outcome := MouseOutcome.result none, commands := [0x80] }

/-- RazerDevice of usb-worker.ts (the opaque USB handle is omitted: the
orchestrator model interacts with the transport through a scripted
oracle). -/
structure RDevice where
  productId : Nat
  deviceName : String
  hasWireless : Bool
  isKeyboard : Bool
deriving DecidableEq, Repr

/-- Outcome of one call of getBatteryFromKeyboard or getBatteryFromMouse as
seen by the orchestrator: a value, a null, or a thrown USBDeviceError.
These functions catch every other exception themselves, so no other kind of
throw can reach the orchestrator. -/
inductive AttemptRes where
  | ok (r : BatteryResult)
  | fail
  | usbErr
deriving DecidableEq, Repr

/-- Result of an orchestrator-level query: a returned value or a propagated
USBDeviceError. -/
inductive QueryRes where
  | value (r : Option BatteryResult)
  | thrown
deriving DecidableEq, Repr

/-- World state threaded through the orchestrator model: the scripted
outcomes of future device-level query attempts, the scripted device lists
of future re-enumerations, and counters for the attempts made and the
re-enumerations performed. -/
structure QState where
  attempts : List AttemptRes
  scans : List (List RDevice)
  attemptCount : Nat
  enumCount : Nat
deriving DecidableEq, Repr

/-- One call of getBatteryFromKeyboard or getBatteryFromMouse: consumes the
next scripted outcome (an exhausted script behaves as a null result) and
counts the attempt. -/
def rawQuery (s : QState) : AttemptRes × QState :=
  match s.attempts with
  | a :: rest =>
    (a, { s with attempts := rest, attemptCount := s.attemptCount + 1 })
  | [] => (AttemptRes.fail, { s with attemptCount := s.attemptCount + 1 })

/-- invalidateDeviceCache followed by getAllRazerDevices after a failure:
consumes the next scripted scan result (an exhausted script behaves as an
empty scan) and counts the re-enumeration. -/
def reEnumerate (s : QState) : List RDevice × QState :=
  match s.scans with
  | l :: rest => (l, { s with scans := rest, enumCount := s.enumCount + 1 })
  | [] => ([], { s with enumCount := s.enumCount + 1 })

/-- getBatteryFromDevice of usb-worker.ts: a device outside the
WIRELESS_DEVICES set is answered null at once, with no transport activity.
Otherwise one query attempt is made; a thrown USBDeviceError triggers one
cache invalidation plus re-enumeration, and one retry against the first
fresh wireless device of the same class.  The retry calls the class query
directly, outside any try block of this function, so a second
USBDeviceError propagates. -/
def getBatteryFromDevice (d : RDevice) (s : QState) : QueryRes × QState :=
  if WIRELESS_DEVICES.contains d.productId then
    match rawQuery s with
    | (AttemptRes.ok r, s1) => (QueryRes.value (some r), s1)
    | (AttemptRes.fail, s1) => (QueryRes.value none, s1)
    | (AttemptRes.usbErr, s1) =>
      match reEnumerate s1 with
      | (fresh, s2) =>
        match (fresh.filter (fun e => e.hasWireless && e.isKeyboard == d.isKeyboard)).head? with
        | some _ =>
          match rawQuery s2 with
          | (AttemptRes.ok r, s3) => (QueryRes.value (some r), s3)
          | (AttemptRes.fail, s3) => (QueryRes.value none, s3)
          | (AttemptRes.usbErr, s3) => (QueryRes.thrown, s3)
        | none => (QueryRes.value none, s2)
  else
    (QueryRes.value none, s)

/-- The exact-product-id branch of getBatteryLevel in usb-worker.ts, with
the initial device list (the cache at entry) given as a parameter.  A
USBDeviceError escaping getBatteryFromDevice is caught once: the cache is
invalidated, a fresh enumeration runs, and getBatteryFromDevice is called
again on the re-found target; if the target is absent, or the second call
throws again, the error propagates to the caller. -/
def getBatteryLevelTarget (target : Nat) (devices : List RDevice)
    (s : QState) : QueryRes × QState :=
  match devices.find? (fun d => d.productId == target) with
  | none => (QueryRes.value none, s)
  | some d =>
    match getBatteryFromDevice d s with
    | (QueryRes.value v, s1) => (QueryRes.value v, s1)
    | (QueryRes.thrown, s1) =>
      match reEnumerate s1 with
      | (fresh, s2) =>
        match fresh.find? (fun d2 => d2.productId == target) with
        | some d2 => getBatteryFromDevice d2 s2
        | none => (QueryRes.thrown, s2)

/-- The device-class filter of getMouseBatteryLevel and
getKeyboardBatteryLevel: wireless devices whose keyboard flag matches. -/
def classFilter (isKb : Bool) (l : List RDevice) : List RDevice :=
  l.filter (fun d => d.isKeyboard == isKb && d.hasWireless)

/-- Result of one pass of the device loop in getMouseBatteryLevel and
getKeyboardBatteryLevel: a successful reading, an exhausted list, or a
request to re-enumerate and restart (only raised on the first pass). -/
inductive PassRes where
  | found (r : BatteryResult)
  | exhausted
  | needRetry
deriving DecidableEq, Repr

/-- One pass of the device loop of getMouseBatteryLevel and
getKeyboardBatteryLevel: every getBatteryFromDevice call sits inside a try
block whose catch either requests the single cache refresh (first pass
only) or logs and moves to the next device. -/
def classPass (tried : Bool) (devs : List RDevice) (s : QState) : PassRes × QState :=
  match devs with
  | [] => (PassRes.exhausted, s)
  | d :: rest =>
    match getBatteryFromDevice d s with
    | (QueryRes.value (some r), s1) => (PassRes.found r, s1)
    | (QueryRes.value none, s1) => classPass tried rest s1
    | (QueryRes.thrown, s1) =>
      if tried then classPass tried rest s1 else (PassRes.needRetry, s1)

/-- getMouseBatteryLevel (isKb := false) and getKeyboardBatteryLevel
(isKb := true) of usb-worker.ts, with the initial device list given as a
parameter: filter to the class, loop over the candidates, refresh the cache
and restart the loop at most once, and degrade every failure to none.  The
whole body also sits inside an outer try that returns null on any escape,
so the function never returns a thrown outcome. -/
def classBatteryLevel (isKb : Bool) (initial : List RDevice)
    (s : QState) : QueryRes × QState :=
  let devs := classFilter isKb initial
  if devs.isEmpty then (QueryRes.value none, s)
  else
    match classPass false devs s with
    | (PassRes.found r, s1) => (QueryRes.value (some r), s1)
    | (PassRes.exhausted, s1) => (QueryRes.value none, s1)
    | (PassRes.needRetry, s1) =>
      match reEnumerate s1 with
      | (fresh, s2) =>
        match classPass true (classFilter isKb fresh) s2 with
        | (PassRes.found r, s3) => (QueryRes.value (some r), s3)
        | (PassRes.exhausted, s3) => (QueryRes.value none, s3)
        | (PassRes.needRetry, s3) => (QueryRes.value none, s3)

/-- A raw USB device as seen by performDeviceEnumeration before
filtering. -/
structure RawUSBDevice where
  vendorId : Nat
  productId : Nat
deriving DecidableEq, Repr

/-- The filtering loop of performDeviceEnumeration in usb-worker.ts: keep
devices of the Razer vendor id 0x1532 that resolve in the catalogue
(unknown ids are logged and dropped), carrying over the catalogue name,
wireless flag, and keyboard classification. -/
def enumerateRazer (l : List RawUSBDevice) : List RDevice :=
  l.filterMap (fun u =>
    if u.vendorId = 0x1532 then
      (lookupProduct u.productId).map (fun info =>
        { productId := u.productId, deviceName := info.name,
          hasWireless := info.hasWireless,
          isKeyboard := isKeyboardDevice u.productId })
    else none)

/-- The confirmedDevicePairs table of RazerBatteryService.deviceMatches:
wired and wireless product ids of the same physical unit. -/
def confirmedDevicePairs : List (Nat × Nat) := [(0x7a, 0x7b)]

/-- RazerBatteryService.deviceMatches: direct equality, or membership of
the two ids in one confirmed pair in either order. -/
def deviceMatches (deviceProductId targetProductId : Nat) : Bool :=
  deviceProductId == targetProductId ||
    confirmedDevicePairs.any (fun p =>
      (p.1 == deviceProductId && p.2 == targetProductId) ||
      (p.2 == deviceProductId && p.1 == targetProductId))

/-- State of the RazerBatteryService model: the device-list cache (product
ids only), the scripted results of future list scans, the scripted worker
replies to future battery requests, and the accumulated list of product ids
the battery requests were issued for.  The model runs the service
sequentially, with no enumeration already pending and no recent scan
error, so the in-flight-promise sharing and the error rate limiting of
getAvailableDevices never fire. -/
structure SvcState where
  cache : Option (List Nat)
  scans : List (List Nat)
  workerReplies : List (Option BatteryResult)
  issued : List Nat
deriving DecidableEq, Repr

/-- RazerBatteryService.getAvailableDevices: the cache when populated,
otherwise one scan whose result populates the cache; a scan failure
(exhausted script) returns an empty list and leaves the cache
unpopulated. -/
def svcGetAvailableDevices (s : SvcState) : List Nat × SvcState :=
  match s.cache with
  | some l => (l, s)
  | none =>
    match s.scans with
    | l :: rest => (l, { s with cache := some l, scans := rest })
    | [] => ([], s)

/-- RazerBatteryService.invalidateDeviceCache: drop the cache. -/
def svcInvalidate (s : SvcState) : SvcState :=
  { s with cache := none }

/-- One battery message to the worker: consumes the next scripted reply (an
exhausted script answers null) and records the product id it was issued
for. -/
def svcQueryWorker (productId : Nat) (s : SvcState) : Option BatteryResult × SvcState :=
  match s.workerReplies with
  | r :: rest =>
    (r, { s with workerReplies := rest, issued := s.issued ++ [productId] })
  | [] => (none, { s with issued := s.issued ++ [productId] })

/-- RazerBatteryService.findDevice: look the product id up in the available
devices; when absent and the cache is populated, invalidate and look again
in a fresh scan. -/
def svcFindDevice (productId : Nat) (s : SvcState) : Option Nat × SvcState :=
  match svcGetAvailableDevices s with
  | (devs, s1) =>
    if devs.contains productId then (some productId, s1)
    else if s1.cache.isSome then
      match svcGetAvailableDevices (svcInvalidate s1) with
      | (devs2, s3) =>
        (if devs2.contains productId then some productId else none, s3)
    else (none, s1)

/-- The exact-product-id path of RazerBatteryService.getBatteryInfo: find
the device, issue the battery request, and if the worker answers null while
the cache is populated, invalidate the cache, rescan, re-resolve the target
through deviceMatches (so a vanished id can be found under its paired
identity), and issue the battery request once more against the resolved
id. -/
def getBatteryInfo (target : Nat) (s : SvcState) : Option BatteryResult × SvcState :=
  match svcFindDevice target s with
  | (none, s1) => (none, s1)
  | (some _, s1) =>
    match svcQueryWorker target s1 with
    | (some r, s2) => (some r, s2)
    | (none, s2) =>
      if s2.cache.isSome then
        match svcGetAvailableDevices (svcInvalidate s2) with
        | (devs, s4) =>
          match devs.find? (fun d => deviceMatches d target) with
          | some fresh => svcQueryWorker fresh s4
          | none => (none, s4)
      else (none, s2)

/-- Where one caller of getAllRazerDevices stands: before its atomic entry
section, awaiting the scan with the given serial number, or holding the
result of that scan. -/
inductive CallerPC where
  | ready
  | waiting (sid : Nat)
  | got (sid : Nat)
deriving DecidableEq, Repr

/-- Shared state of the enumeration coordination in usb-worker.ts: the
cached result (as the serial number of the scan that produced it), the
serial number of the scan the in-flight promise belongs to, and how many
scans were ever started. -/
structure EnumCoordState where
  cache : Option Nat
  inflight : Option Nat
  started : Nat
deriving DecidableEq, Repr

/-- The entry section of getAllRazerDevices, which runs atomically: the
cache check, the in-flight-promise check, and the assignment of a new
enumeration promise all happen before the first await, so no other caller
can interleave within them.  A caller either takes the cached result,
attaches to the pending scan, or starts a new scan and attaches to it. -/
def enumEntryStep (s : EnumCoordState) : CallerPC × EnumCoordState :=
  match s.cache with
  | some r => (CallerPC.got r, s)
  | none =>
    match s.inflight with
    | some sid => (CallerPC.waiting sid, s)
    | none =>
      (CallerPC.waiting s.started,
        { s with inflight := some s.started, started := s.started + 1 })

/-- The scripted fate of each step of one sendRazerBatteryCommand session:
whether the device opens, whether its configuration is null (so that
selectConfiguration runs), and whether each subsequent USB call
succeeds. -/
structure USBOutcome where
  openOk : Bool
  configIsNull : Bool
  selectOk : Bool
  claimOk : Bool
  writeOk : Bool
  readOk : Bool
  releaseOk : Bool
  closeOk : Bool
deriving DecidableEq, Repr

/-- The observable operations of one session, in order. -/
inductive SEvent where
  | opened
  | selected
  | claimed
  | wrote
  | readResp
  | released
  | closed
deriving DecidableEq, Repr

/-- What a sendRazerBatteryCommand session left behind: the successful
operations in order, whether the device handle is still open, whether the
interface is still claimed, and whether the call threw to its caller. -/
structure SessionRun where
  events : List SEvent
  deviceOpen : Bool
  interfaceClaimed : Bool
  threw : Bool
deriving DecidableEq, Repr

/-- sendRazerBatteryCommand of usb-worker.ts, tracking resource state.
device.open, the configuration check with selectConfiguration, and
claimInterface all run before the try block, so a throw in any of them
skips the teardown entirely.  The finally block wraps releaseInterface and
close in a single inner try whose catch only logs: a throw from
releaseInterface therefore also skips close, and a throw from close leaves
the handle open; in either case the body error (if any) still propagates
once the finally block finishes. -/
def sendRazerBatteryCommandSession (o : USBOutcome) : SessionRun :=
  if o.openOk = false then
    { events := [], deviceOpen := false, interfaceClaimed := false, threw := true }
  else if o.configIsNull && !o.selectOk then
    { events := [SEvent.opened], deviceOpen := true, interfaceClaimed := false, threw := true }
  else
    let pre := if o.configIsNull then [SEvent.opened, SEvent.selected] else [SEvent.opened]
    if o.claimOk = false then
      { events := pre, deviceOpen := true, interfaceClaimed := false, threw := true }
    else
      let body := if o.writeOk then
          if o.readOk then [SEvent.wrote, SEvent.readResp] else [SEvent.wrote]
        else []
      let bodyFailed := !(o.writeOk && o.readOk)
      if o.releaseOk then
        { events := pre ++ [SEvent.claimed] ++ body ++ [SEvent.released] ++
            (if o.closeOk then [SEvent.closed] else []),
          deviceOpen := !o.closeOk, interfaceClaimed := false, threw := bodyFailed }
      else
        { events := pre ++ [SEvent.claimed] ++ body,
          deviceOpen := true, interfaceClaimed := true, threw := bodyFailed }

/-- The Viper Ultimate in wired mode, as enumerated. -/
def viperWiredDev : RDevice :=
  { productId := 0x007A, deviceName := "Razer Viper Ultimate (Wired)",
    hasWireless := true, isKeyboard := false }

/-- A world in which every device-level query attempt throws a retryable
USBDeviceError and every re-enumeration still finds the wired Viper
Ultimate. -/
def stormWorld : QState :=
  { attempts := [AttemptRes.usbErr, AttemptRes.usbErr, AttemptRes.usbErr, AttemptRes.usbErr],
    scans := [[viperWiredDev], [viperWiredDev], [viperWiredDev]],
    attemptCount := 0, enumCount := 0 }

/-- A world with two throwing attempts and a single scripted re-enumeration
that still finds the device; the scan budget is then exhausted. -/
def doubleThrowWorld : QState :=
  { attempts := [AttemptRes.usbErr, AttemptRes.usbErr],
    scans := [[viperWiredDev]],
    attemptCount := 0, enumCount := 0 }

/-- A mouse battery response with error status 0x05 and a nonzero byte at
position 8: the wired Viper Ultimate fallback case. -/
def status05Resp : List Nat := [0x05, 0, 0, 0, 0, 0, 0, 0, 50, 75]

/-- A mouse battery response with error status 0x03 and a nonzero byte at
position 8. -/
def status03Resp : List Nat := [0x03, 0, 0, 0, 0, 0, 0, 0, 50, 75]

/-- A session script whose selectConfiguration call fails after the device
was opened. -/
def selectFailOutcome : USBOutcome :=
  { openOk := true, configIsNull := true, selectOk := false, claimOk := true,
    writeOk := true, readOk := true, releaseOk := true, closeOk := true }

lemma foldl_xor_replicate_zero (a n : Nat) :
    List.foldl Nat.xor a (List.replicate n 0) = a := by
  induction n generalizing a with
  | zero => rfl
  | succ n ih =>
    rw [List.replicate_succ, List.foldl_cons]
    have hx : Nat.xor a 0 = a := Nat.xor_zero a
    rw [hx]
    exact ih a

lemma razerFrame_take_eight (t c : Nat) :
    (razerFrame t c).take 8 = [0x00, t, 0x00, 0x00, 0x00, 0x02, 0x07, c] := by
  simp [razerFrame, razerHeader]

lemma razerFrame_length (t c : Nat) : (razerFrame t c).length = 90 := by
  simp [razerFrame, razerHeader]

lemma razerFrame_payload_zero (t c : Nat) :
    ((razerFrame t c).drop 8).take 80 = List.replicate 80 0 := by
  simp [razerFrame, razerHeader]

lemma razerFrame_getD_88 (t c : Nat) :
    (razerFrame t c).getD 88 1 = razerCrc t c := by
  simp [razerFrame, razerHeader, List.getD_append_right, List.getD]

lemma razerFrame_getD_89 (t c : Nat) : (razerFrame t c).getD 89 1 = 0 := by
  simp [razerFrame, razerHeader, List.getD_append_right, List.getD]

lemma razerFrame_checksum (t c : Nat) :
    (((razerFrame t c).drop 2).take 86).foldl Nat.xor 0 = razerCrc t c := by
  have h1 : ((razerFrame t c).drop 2).take 86 =
      [0x00, 0x00, 0x00, 0x02, 0x07, c] ++ List.replicate 80 0 := by
    simp [razerFrame, razerHeader, List.take_append_eq_append_take]
  rw [h1, List.foldl_append, foldl_xor_replicate_zero]
  rfl

/-- C1: for every supported device descriptor and every command byte 0x80 or
0x84, createRazerRequest returns exactly the 90-byte frame whose first 8
bytes are the header [0x00, transactionTag, 0x00, 0x00, 0x00, 0x02, 0x07,
command] with the tag from the catalogue entry, whose bytes 8..87 are all
zero, whose byte 88 is the XOR of bytes 2..87 of the frame, and whose byte
89 is zero; the frame depends only on the (transactionTag, command) pair, so
encoding the same pair twice is byte-identical. -/
theorem C1_frame_encoder (pid : Nat) (info : DeviceInfo) (c : Nat)
    (hl : lookupProduct pid = some info) (hc : c = 0x80 ∨ c = 0x84) :
    createRazerRequest pid c = some (razerFrame info.transactionId c) ∧
    (razerFrame info.transactionId c).length = 90 ∧
    (razerFrame info.transactionId c).take 8 =
      [0x00, info.transactionId, 0x00, 0x00, 0x00, 0x02, 0x07, c] ∧
    ((razerFrame info.transactionId c).drop 8).take 80 = List.replicate 80 0 ∧
    (razerFrame info.transactionId c).getD 88 1 =
      (((razerFrame info.transactionId c).drop 2).take 86).foldl Nat.xor 0 ∧
    (razerFrame info.transactionId c).getD 89 1 = 0 ∧
    (∀ pid2 info2, lookupProduct pid2 = some info2 →
      info2.transactionId = info.transactionId →
      createRazerRequest pid2 c = createRazerRequest pid c) := by
  refine ⟨?_, razerFrame_length _ _, razerFrame_take_eight _ _,
    razerFrame_payload_zero _ _, ?_, razerFrame_getD_89 _ _, ?_⟩
  · simp [createRazerRequest, hl]
  · rw [razerFrame_getD_88, razerFrame_checksum]
  · intro pid2 info2 hl2 ht
    simp [createRazerRequest, hl, hl2, ht]

/-- Witness for C1 at the first catalogue entry (the Razer Viper, tag 0x3f)
and command 0x80. -/
theorem C1_frame_encoder_witness :
    createRazerRequest 0x0078 0x80 = some (razerFrame 0x3f 0x80) ∧
    (razerFrame 0x3f 0x80).length = 90 ∧
    (razerFrame 0x3f 0x80).take 8 =
      [0x00, 0x3f, 0x00, 0x00, 0x00, 0x02, 0x07, 0x80] ∧
    ((razerFrame 0x3f 0x80).drop 8).take 80 = List.replicate 80 0 ∧
    (razerFrame 0x3f 0x80).getD 88 1 =
      (((razerFrame 0x3f 0x80).drop 2).take 86).foldl Nat.xor 0 ∧
    (razerFrame 0x3f 0x80).getD 89 1 = 0 := by
  have h := C1_frame_encoder 0x0078
    { name := "Razer Viper", transactionId := 0x3f, hasWireless := false }
    0x80 rfl (Or.inl rfl)
  exact ⟨h.1, h.2.1, h.2.2.1, h.2.2.2.1, h.2.2.2.2.1, h.2.2.2.2.2.1⟩

/-- C3: for every keyboard battery response of at least 10 bytes, format
byte 0x04 yields batteryLevel none with isCharging true regardless of the
battery byte, any other format byte yields byte 9 scaled from 0..255 to
0..100 with one decimal (tenths of a percent here) and isCharging false,
and the keyboard path issues exactly the single command 0x80, never the
charging-status command 0x84. -/
theorem C3_keyboard_decode (name : String) (pid : Nat) (respond : Nat → List Nat)
    (h10 : 10 ≤ (respond 0x80).length) :
    ((respond 0x80).getD 0 0 = 0x04 →
      (getBatteryFromKeyboard name pid respond).1 =
        some { batteryLevel := none, isCharging := true,
               deviceName := name, productId := pid }) ∧
    ((respond 0x80).getD 0 0 ≠ 0x04 →
      (getBatteryFromKeyboard name pid respond).1 =
        some { batteryLevel := some (scaleBattery ((respond 0x80).getD 9 0)),
               isCharging := false, deviceName := name, productId := pid }) ∧
    (getBatteryFromKeyboard name pid respond).2 = [0x80] ∧
    0x84 ∉ (getBatteryFromKeyboard name pid respond).2 := by
  refine ⟨fun h4 => ?_, fun h4 => ?_, ?_, ?_⟩
  · simp only [List.getD_eq_getElem?_getD] at h4
    simp [getBatteryFromKeyboard, h10, h4]
  · simp only [List.getD_eq_getElem?_getD] at h4
    simp [getBatteryFromKeyboard, h10, h4]
  · by_cases h4 : (respond 0x80)[0]?.getD 0 = 0x04 <;>
      simp [getBatteryFromKeyboard, h10, h4]
  · by_cases h4 : (respond 0x80)[0]?.getD 0 = 0x04 <;>
      simp [getBatteryFromKeyboard, h10, h4]

/-- Witness for C3: a charging-format response (byte 0 equal to 0x04 with a
nonzero battery byte) and a normal-format response (byte 0 equal to 0x02
with battery byte 128, which scales to 50.2 percent). -/
theorem C3_keyboard_decode_witness :
    (getBatteryFromKeyboard "kb" 0x025C
        (fun _ => [0x04, 0, 0, 0, 0, 0, 0, 0, 0, 77])).1 =
      some { batteryLevel := none, isCharging := true,
             deviceName := "kb", productId := 0x025C } ∧
    (getBatteryFromKeyboard "kb" 0x025C
        (fun _ => [0x02, 0, 0, 0, 0, 0, 0, 0, 0, 128])).1 =
      some { batteryLevel := some (scaleBattery 128), isCharging := false,
             deviceName := "kb", productId := 0x025C } ∧
    scaleBattery 128 = 502 := by
  refine ⟨?_, ?_, rfl⟩
  · exact (C3_keyboard_decode "kb" 0x025C
      (fun _ => [0x04, 0, 0, 0, 0, 0, 0, 0, 0, 77]) (by decide)).1 rfl
  · exact (C3_keyboard_decode "kb" 0x025C
      (fun _ => [0x02, 0, 0, 0, 0, 0, 0, 0, 0, 128]) (by decide)).2.1 (by decide)

/-- C4 counterexample: the claim states that any status byte other than
0x02 means the attempt fails (with only the 0x01 retry as exception), but a
response with status 0x05 from product id 0x007A still yields a battery
reading through the wired-mode fallback scan (here 50 percent, charging). -/
theorem C4_counterexample :
    (tryMouseBatteryWithInterface "Razer Viper Ultimate (Wired)" 0x007A
        [USBReply.ok status05Resp]).outcome =
      MouseOutcome.result (some
        { batteryLevel := some 500, isCharging := true,
          deviceName := "Razer Viper Ultimate (Wired)", productId := 0x007A }) ∧
    status05Resp.getD 0 0 = 0x05 ∧
    (0x05 : Nat) ≠ 0x02 ∧ (0x05 : Nat) ≠ 0x01 := by
  refine ⟨?_, by decide, by decide, by decide⟩
  rfl

/-- C4 as amended: status 0x02 is success with battery taken from byte 9
(and charging decoded from the follow-up 0x84 exchange); status 0x01
triggers exactly one in-place retry of the battery command and only a retry
with status 0x02 yields a reading, while a retry that returns any other
status, is too short, or throws, ends the attempt with no third battery
command; any other status fails the attempt, except that product id 0x007A
with status 0x05 is handed to the wired-mode fallback scan. -/
theorem C4_mouse_status (name : String) (pid : Nat) (b rb : List Nat) (r2 : USBReply) :
    ((hlen : 10 ≤ b.length) → (hst : b.getD 0 0 = 0x02) →
      tryMouseBatteryWithInterface name pid [USBReply.ok b, r2] =
        { outcome := MouseOutcome.result (some
            { batteryLevel := some (scaleBattery (b.getD 9 0)),
              isCharging := chargingFromReply r2,
              deviceName := name, productId := pid }),
          commands := [0x80, 0x84] }) ∧
    ((hlen : 10 ≤ b.length) → (hst : b.getD 0 0 = 0x01) →
      (hrlen : 10 ≤ rb.length) → (hrst : rb.getD 0 0 = 0x02) →
      tryMouseBatteryWithInterface name pid [USBReply.ok b, USBReply.ok rb, r2] =
        { outcome := MouseOutcome.result (some
            { batteryLevel := some (scaleBattery (rb.getD 9 0)),
              isCharging := chargingFromReply r2,
              deviceName := name, productId := pid }),
          commands := [0x80, 0x80, 0x84] }) ∧
    ((hlen : 10 ≤ b.length) → (hst : b.getD 0 0 = 0x01) →
      (hr : ¬(10 ≤ rb.length ∧ rb.getD 0 0 = 0x02)) →
      tryMouseBatteryWithInterface name pid [USBReply.ok b, USBReply.ok rb] =
        { outcome := MouseOutcome.result none, commands := [0x80, 0x80] }) ∧
    ((hlen : 10 ≤ b.length) → (hst : b.getD 0 0 = 0x01) →
      (hth : r2 = USBReply.usbErr ∨ r2 = USBReply.otherErr) →
      tryMouseBatteryWithInterface name pid [USBReply.ok b, r2] =
        { outcome := MouseOutcome.result none, commands := [0x80, 0x80] }) ∧
    ((hlen : 10 ≤ b.length) → (h2 : b.getD 0 0 ≠ 0x02) → (h1 : b.getD 0 0 ≠ 0x01) →
      (h5 : ¬(pid = 0x007A ∧ b.getD 0 0 = 0x05)) →
      tryMouseBatteryWithInterface name pid [USBReply.ok b] =
        { outcome := MouseOutcome.result none, commands := [0x80] }) := by
  refine ⟨fun hlen hst => ?_, fun hlen hst hrlen hrst => ?_,
    fun hlen hst hr => ?_, fun hlen hst hth => ?_, fun hlen h2 h1 h5 => ?_⟩
  · simp only [List.getD_eq_getElem?_getD] at hst
    simp [tryMouseBatteryWithInterface, nextReply, hlen, hst]
  · simp only [List.getD_eq_getElem?_getD] at hst hrst
    simp [tryMouseBatteryWithInterface, nextReply, hlen, hst, hrlen, hrst]
  · simp only [List.getD_eq_getElem?_getD] at hst hr
    simp [tryMouseBatteryWithInterface, nextReply, hlen, hst, hr]
  · simp only [List.getD_eq_getElem?_getD] at hst
    rcases hth with h | h <;>
      simp [tryMouseBatteryWithInterface, nextReply, hlen, hst, h]
  · simp only [List.getD_eq_getElem?_getD] at h2 h1 h5
    simp [tryMouseBatteryWithInterface, nextReply, hlen, h2, h1, h5]

/-- Witness for C4 as amended: concrete runs through all five conjuncts. -/
theorem C4_mouse_status_witness :
    tryMouseBatteryWithInterface "m" 0x0078
        [USBReply.ok [2, 0, 0, 0, 0, 0, 0, 0, 0, 200],
         USBReply.ok [2, 0, 0, 0, 0, 0, 0, 0, 0, 1]] =
      { outcome := MouseOutcome.result (some
          { batteryLevel := some (scaleBattery (([2, 0, 0, 0, 0, 0, 0, 0, 0, 200] : List Nat).getD 9 0)),
            isCharging := chargingFromReply (USBReply.ok [2, 0, 0, 0, 0, 0, 0, 0, 0, 1]),
            deviceName := "m", productId := 0x0078 }),
        commands := [0x80, 0x84] } ∧
    tryMouseBatteryWithInterface "m" 0x0078
        [USBReply.ok [1, 0, 0, 0, 0, 0, 0, 0, 0, 0],
         USBReply.ok [2, 0, 0, 0, 0, 0, 0, 0, 0, 128],
         USBReply.ok [2, 0, 0, 0, 0, 0, 0, 0, 0, 1]] =
      { outcome := MouseOutcome.result (some
          { batteryLevel := some (scaleBattery (([2, 0, 0, 0, 0, 0, 0, 0, 0, 128] : List Nat).getD 9 0)),
            isCharging := chargingFromReply (USBReply.ok [2, 0, 0, 0, 0, 0, 0, 0, 0, 1]),
            deviceName := "m", productId := 0x0078 }),
        commands := [0x80, 0x80, 0x84] } ∧
    tryMouseBatteryWithInterface "m" 0x0078
        [USBReply.ok [1, 0, 0, 0, 0, 0, 0, 0, 0, 0],
         USBReply.ok [1, 0, 0, 0, 0, 0, 0, 0, 0, 0]] =
      { outcome := MouseOutcome.result none, commands := [0x80, 0x80] } ∧
    tryMouseBatteryWithInterface "m" 0x0078
        [USBReply.ok [1, 0, 0, 0, 0, 0, 0, 0, 0, 0], USBReply.usbErr] =
      { outcome := MouseOutcome.result none, commands := [0x80, 0x80] } ∧
    tryMouseBatteryWithInterface "m" 0x0078
        [USBReply.ok [7, 0, 0, 0, 0, 0, 0, 0, 0, 0]] =
      { outcome := MouseOutcome.result none, commands := [0x80] } := by
  refine ⟨?_, ?_, ?_, ?_, ?_⟩
  · exact (C4_mouse_status "m" 0x0078 [2, 0, 0, 0, 0, 0, 0, 0, 0, 200] []
      (USBReply.ok [2, 0, 0, 0, 0, 0, 0, 0, 0, 1])).1 (by decide) (by decide)
  · exact (C4_mouse_status "m" 0x0078 [1, 0, 0, 0, 0, 0, 0, 0, 0, 0]
      [2, 0, 0, 0, 0, 0, 0, 0, 0, 128]
      (USBReply.ok [2, 0, 0, 0, 0, 0, 0, 0, 0, 1])).2.1
      (by decide) (by decide) (by decide) (by decide)
  · exact (C4_mouse_status "m" 0x0078 [1, 0, 0, 0, 0, 0, 0, 0, 0, 0]
      [1, 0, 0, 0, 0, 0, 0, 0, 0, 0] USBReply.usbErr).2.2.1
      (by decide) (by decide) (by decide)
  · exact (C4_mouse_status "m" 0x0078 [1, 0, 0, 0, 0, 0, 0, 0, 0, 0] []
      USBReply.usbErr).2.2.2.1 (by decide) (by decide) (Or.inl rfl)
  · exact (C4_mouse_status "m" 0x0078 [7, 0, 0, 0, 0, 0, 0, 0, 0, 0] []
      USBReply.usbErr).2.2.2.2 (by decide) (by decide) (by decide) (by decide)

lemma interpFallbackByte_pos (v : Nat) (h1 : 0 < v) (h2 : v ≤ 255) :
    0 < interpFallbackByte v := by
  unfold interpFallbackByte
  by_cases h : v ≤ 100
  · simp [h]; omega
  · have h102 : 102 ≤ 400 * v + 51 := by omega
    simp [h, h2, scaleBattery]
    exact Nat.div_pos h102 (by norm_num)

lemma scanSlice_findSome (l : List Nat) (hb : ∀ v ∈ l, v ≤ 255) :
    l.findSome? (fun v =>
      if 0 < v then
        if 0 < interpFallbackByte v then some (interpFallbackByte v) else none
      else none) =
    (l.find? (fun v => v != 0)).map interpFallbackByte := by
  induction l with
  | nil => rfl
  | cons a rest ih =>
    have ha : a ≤ 255 := hb a (List.mem_cons_self a rest)
    have hrest : ∀ v ∈ rest, v ≤ 255 := fun v hv => hb v (List.mem_cons_of_mem a hv)
    by_cases h0 : a = 0
    · subst h0
      simpa [List.findSome?_cons, List.find?_cons] using ih hrest
    · have h1 : 0 < a := Nat.pos_of_ne_zero h0
      have hp := interpFallbackByte_pos a h1 ha
      have hne : (a != 0) = true := by simpa using h0
      simp [List.findSome?_cons, List.find?_cons, h1, hp, hne]

lemma scanFallback_eq_find (b : List Nat) (hb : ∀ v ∈ (b.take 16).drop 8, v ≤ 255) :
    scanFallback b = (((b.take 16).drop 8).find? (fun v => v != 0)).map interpFallbackByte := by
  unfold scanFallback
  exact scanSlice_findSome _ hb

lemma scanFallback_none_iff (b : List Nat) (hb : ∀ v ∈ (b.take 16).drop 8, v ≤ 255) :
    (scanFallback b = none ↔ ∀ v ∈ (b.take 16).drop 8, v = 0) := by
  rw [scanFallback_eq_find b hb]
  simp [List.find?_eq_none]

/-- C5 counterexample: the claim covers every failed response (any nonzero
error status byte) from product id 0x007A, but the code runs the fallback
scan only when the status byte is exactly 0x05.  With status 0x03 and a
nonzero byte 50 at position 8 the decoder returns none instead of a 50
percent charging reading. -/
theorem C5_counterexample :
    (tryMouseBatteryWithInterface "Razer Viper Ultimate (Wired)" 0x007A
        [USBReply.ok status03Resp]).outcome = MouseOutcome.result none ∧
    status03Resp.getD 0 0 = 0x03 ∧
    (0x03 : Nat) ≠ 0 ∧ (0x03 : Nat) ≠ 0x02 ∧
    status03Resp.getD 8 0 = 50 ∧ (50 : Nat) ≠ 0 := by
  refine ⟨?_, by decide, by decide, by decide, by decide, by decide⟩
  rfl

/-- C5 as amended: for product id 0x007A, a battery response whose status
byte is exactly 0x05 (not an arbitrary nonzero error status) is scanned at
bytes 8..15 for the first nonzero value, which is taken directly as a
percentage when at most 100 and otherwise scaled from 0..255, and returned
with isCharging true; none is returned exactly when all of bytes 8..15 are
zero. -/
theorem C5_wired_fallback (name : String) (b : List Nat)
    (hlen : 10 ≤ b.length) (hst : b.getD 0 0 = 0x05)
    (hb : ∀ v ∈ (b.take 16).drop 8, v ≤ 255) :
    tryMouseBatteryWithInterface name 0x007A [USBReply.ok b] =
      { outcome := MouseOutcome.result ((scanFallback b).map (fun lv =>
          { batteryLevel := some lv, isCharging := true,
            deviceName := name, productId := 0x007A })),
        commands := [0x80] } ∧
    scanFallback b =
      (((b.take 16).drop 8).find? (fun v => v != 0)).map interpFallbackByte ∧
    (∀ v, v ≤ 100 → interpFallbackByte v = v * 10) ∧
    (∀ v, 100 < v → v ≤ 255 → interpFallbackByte v = scaleBattery v) ∧
    (scanFallback b = none ↔ ∀ v ∈ (b.take 16).drop 8, v = 0) := by
  refine ⟨?_, scanFallback_eq_find b hb, ?_, ?_, scanFallback_none_iff b hb⟩
  · simp only [List.getD_eq_getElem?_getD] at hst
    cases hscan : scanFallback b <;>
      simp [tryMouseBatteryWithInterface, nextReply, hlen, hst, hscan]
  · intro v hv
    simp [interpFallbackByte, hv]
  · intro v hv1 hv2
    simp [interpFallbackByte, hv2, Nat.not_le.mpr hv1]

/-- Witness for C5 as amended: a status 0x05 response whose first nonzero
scanned byte is 120 at position 9, which scales to 47.1 percent. -/
theorem C5_wired_fallback_witness :
    tryMouseBatteryWithInterface "w" 0x007A
        [USBReply.ok [0x05, 0, 0, 0, 0, 0, 0, 0, 0, 120, 0, 0, 0, 0, 0, 0]] =
      { outcome := MouseOutcome.result
          ((scanFallback [0x05, 0, 0, 0, 0, 0, 0, 0, 0, 120, 0, 0, 0, 0, 0, 0]).map (fun lv =>
            { batteryLevel := some lv, isCharging := true,
              deviceName := "w", productId := 0x007A })),
        commands := [0x80] } ∧
    scanFallback [0x05, 0, 0, 0, 0, 0, 0, 0, 0, 120, 0, 0, 0, 0, 0, 0] = some 471 := by
  refine ⟨?_, by rfl⟩
  exact (C5_wired_fallback "w" [0x05, 0, 0, 0, 0, 0, 0, 0, 0, 120, 0, 0, 0, 0, 0, 0]
    (by decide) (by decide) (by decide)).1

lemma reEnumerate_counts (s : QState) :
    (reEnumerate s).2.attemptCount = s.attemptCount ∧
    (reEnumerate s).2.enumCount = s.enumCount + 1 := by
  cases h : s.scans <;> simp [reEnumerate, h]

lemma getBatteryFromDevice_counts (d : RDevice) (s : QState) :
    (getBatteryFromDevice d s).2.attemptCount ≤ s.attemptCount + 2 ∧
    (getBatteryFromDevice d s).2.enumCount ≤ s.enumCount + 1 := by
  obtain ⟨atts, scs, ac, ec⟩ := s
  unfold getBatteryFromDevice
  by_cases hw : WIRELESS_DEVICES.contains d.productId
  case neg =>
    rw [if_neg hw]
    exact ⟨Nat.le_add_right _ _, Nat.le_add_right _ _⟩
  case pos =>
    rw [if_pos hw]
    cases atts with
    | nil => dsimp only [rawQuery]; omega
    | cons a rest =>
      cases a with
      | ok r => dsimp only [rawQuery]; omega
      | fail => dsimp only [rawQuery]; omega
      | usbErr =>
        cases scs with
        | nil =>
          dsimp only [rawQuery, reEnumerate]
          simp only [List.filter_nil, List.head?_nil]
          omega
        | cons l ls =>
          dsimp only [rawQuery, reEnumerate]
          cases hh : (List.filter (fun e => e.hasWireless && e.isKeyboard == d.isKeyboard) l).head? with
          | none => dsimp only; omega
          | some f =>
            cases rest with
            | nil => dsimp only [rawQuery]; omega
            | cons a2 rest2 => cases a2 <;> dsimp only [rawQuery] <;> omega

lemma getBatteryFromDevice_usbErr_enum (d : RDevice) (s : QState)
    (rest : List AttemptRes)
    (hw : WIRELESS_DEVICES.contains d.productId = true)
    (ha : s.attempts = AttemptRes.usbErr :: rest) :
    (getBatteryFromDevice d s).2.enumCount = s.enumCount + 1 := by
  obtain ⟨atts, scs, ac, ec⟩ := s
  dsimp only at ha
  subst ha
  unfold getBatteryFromDevice
  rw [if_pos hw]
  cases scs with
  | nil =>
    dsimp only [rawQuery, reEnumerate]
    simp only [List.filter_nil, List.head?_nil]
  | cons l ls =>
    dsimp only [rawQuery, reEnumerate]
    cases hh : (List.filter (fun e => e.hasWireless && e.isKeyboard == d.isKeyboard) l).head? with
    | none => dsimp only
    | some f =>
      cases rest with
      | nil => dsimp only [rawQuery]
      | cons a2 rest2 => cases a2 <;> dsimp only [rawQuery]

lemma getBatteryFromDevice_retry_fail (d : RDevice) (s : QState)
    (rest : List AttemptRes)
    (ha : s.attempts = AttemptRes.usbErr :: AttemptRes.fail :: rest) :
    (getBatteryFromDevice d s).1 = QueryRes.value none := by
  obtain ⟨atts, scs, ac, ec⟩ := s
  dsimp only at ha
  subst ha
  unfold getBatteryFromDevice
  by_cases hw : WIRELESS_DEVICES.contains d.productId
  case neg => rw [if_neg hw]
  case pos =>
    rw [if_pos hw]
    cases scs with
    | nil => rfl
    | cons l ls =>
      dsimp only [rawQuery, reEnumerate]
      cases hh : (List.filter (fun e => e.hasWireless && e.isKeyboard == d.isKeyboard) l).head? with
      | none => dsimp only
      | some f => dsimp only [rawQuery]

lemma getBatteryLevelTarget_counts (t : Nat) (devices : List RDevice) (s : QState) :
    (getBatteryLevelTarget t devices s).2.attemptCount ≤ s.attemptCount + 4 ∧
    (getBatteryLevelTarget t devices s).2.enumCount ≤ s.enumCount + 3 := by
  unfold getBatteryLevelTarget
  cases hf : devices.find? (fun d => d.productId == t) with
  | none =>
    exact ⟨Nat.le_add_right _ _, Nat.le_add_right _ _⟩
  | some d =>
    dsimp only
    rcases hg : getBatteryFromDevice d s with ⟨q1, s1⟩
    have cg := getBatteryFromDevice_counts d s
    rw [hg] at cg
    dsimp only at cg
    cases q1 with
    | value v => dsimp only; omega
    | thrown =>
      dsimp only
      rcases h2 : reEnumerate s1 with ⟨fresh, s2⟩
      have c2 := reEnumerate_counts s1
      rw [h2] at c2
      dsimp only at c2
      dsimp only
      cases hf2 : fresh.find? (fun d2 => d2.productId == t) with
      | none => dsimp only; omega
      | some d2 =>
        dsimp only
        have cg2 := getBatteryFromDevice_counts d2 s2
        omega

/-- C2 counterexample: in a world where the target device is always found
again and every device-level attempt throws a retryable USBDeviceError, an
exact-id getBatteryLevel query performs three re-enumerations and four
attempts and ends by propagating the error, not by returning no data — the
claim allows exactly one re-enumeration, at most two attempts, and a none
result. -/
theorem C2_counterexample :
    getBatteryLevelTarget 0x007A [viperWiredDev] stormWorld =
      (QueryRes.thrown,
        { attempts := [], scans := [], attemptCount := 4, enumCount := 3 }) := by
  rfl

/-- C2 as amended: the device-level handler getBatteryFromDevice performs at
most one cache-invalidation-plus-re-enumeration and at most two attempts
per call (exactly one re-enumeration once the first attempt on a wireless
device throws), and a retry that fails without throwing yields no data; but a
retry that throws propagates to the exact-id getBatteryLevel layer, which
re-enumerates once more and calls the device-level handler again, so a
single exact-id query is bounded by three re-enumerations and four attempts
rather than one and two. -/
theorem C2_retry_budget :
    (∀ (d : RDevice) (s : QState),
      (getBatteryFromDevice d s).2.attemptCount ≤ s.attemptCount + 2 ∧
      (getBatteryFromDevice d s).2.enumCount ≤ s.enumCount + 1) ∧
    (∀ (d : RDevice) (s : QState) (rest : List AttemptRes),
      WIRELESS_DEVICES.contains d.productId = true →
      s.attempts = AttemptRes.usbErr :: rest →
      (getBatteryFromDevice d s).2.enumCount = s.enumCount + 1) ∧
    (∀ (d : RDevice) (s : QState) (rest : List AttemptRes),
      s.attempts = AttemptRes.usbErr :: AttemptRes.fail :: rest →
      (getBatteryFromDevice d s).1 = QueryRes.value none) ∧
    (∀ (t : Nat) (devices : List RDevice) (s : QState),
      (getBatteryLevelTarget t devices s).2.attemptCount ≤ s.attemptCount + 4 ∧
      (getBatteryLevelTarget t devices s).2.enumCount ≤ s.enumCount + 3) :=
  ⟨getBatteryFromDevice_counts,
   fun d s rest hw ha => getBatteryFromDevice_usbErr_enum d s rest hw ha,
   fun d s rest ha => getBatteryFromDevice_retry_fail d s rest ha,
   getBatteryLevelTarget_counts⟩

/-- Witness for C2 as amended: in doubleThrowWorld the wired Viper Ultimate
hits the usbErr-then-usbErr script, and with a usbErr-then-fail script the
device handler re-enumerates once and returns no data. -/
theorem C2_retry_budget_witness :
    ((getBatteryFromDevice viperWiredDev doubleThrowWorld).2.enumCount =
      doubleThrowWorld.enumCount + 1) ∧
    ((getBatteryFromDevice viperWiredDev
        { attempts := [AttemptRes.usbErr, AttemptRes.fail],
          scans := [[viperWiredDev]], attemptCount := 0, enumCount := 0 }).1 =
      QueryRes.value none) := by
  constructor
  · exact C2_retry_budget.2.1 viperWiredDev doubleThrowWorld
      [AttemptRes.usbErr] (by rfl) (by rfl)
  · exact C2_retry_budget.2.2.1 viperWiredDev
      { attempts := [AttemptRes.usbErr, AttemptRes.fail],
        scans := [[viperWiredDev]], attemptCount := 0, enumCount := 0 }
      [] (by rfl)

lemma classBatteryLevel_value (isKb : Bool) (initial : List RDevice) (s : QState) :
    ∃ v s2, classBatteryLevel isKb initial s = (QueryRes.value v, s2) := by
  unfold classBatteryLevel
  cases he : (classFilter isKb initial).isEmpty with
  | true => exact ⟨none, s, by simp [he]⟩
  | false =>
    simp only [he, Bool.false_eq_true, if_false]
    rcases h1 : classPass false (classFilter isKb initial) s with ⟨pr, s1⟩
    cases pr with
    | found r => exact ⟨some r, s1, rfl⟩
    | exhausted => exact ⟨none, s1, rfl⟩
    | needRetry =>
      dsimp only
      rcases h2 : reEnumerate s1 with ⟨fresh, s2⟩
      dsimp only
      rcases h3 : classPass true (classFilter isKb fresh) s2 with ⟨pr2, s3⟩
      cases pr2 with
      | found r => exact ⟨some r, s3, rfl⟩
      | exhausted => exact ⟨none, s3, rfl⟩
      | needRetry => exact ⟨none, s3, rfl⟩

/-- C6 counterexample: getBatteryLevel is an exported battery-query
operation, yet in a world where both device-level attempts throw a
retryable transport error and the re-scan budget is exhausted, its exact-id
path propagates the USBDeviceError to the caller instead of returning no
data. -/
theorem C6_counterexample :
    getBatteryLevelTarget 0x007A [viperWiredDev] doubleThrowWorld =
      (QueryRes.thrown,
        { attempts := [], scans := [], attemptCount := 2, enumCount := 2 }) := by
  rfl

/-- C6 as amended: the class-filtered exports getMouseBatteryLevel and
getKeyboardBatteryLevel catch every failure and always return a value (none
on failure) in every world — shown here for all worlds, and concretely for
the storm world in which the exact-id path would throw; but the exported
exact-id getBatteryLevel path can propagate a USBDeviceError to its caller
when its retry also throws. -/
theorem C6_degrade_to_none :
    (∀ (isKb : Bool) (initial : List RDevice) (s : QState),
      ∃ v s2, classBatteryLevel isKb initial s = (QueryRes.value v, s2)) ∧
    (classBatteryLevel false [viperWiredDev] stormWorld).1 = QueryRes.value none :=
  ⟨classBatteryLevel_value, by rfl⟩

/-- Witness for C6 as amended: the mouse-class export degrades to none in
the storm world where the exact-id path would throw. -/
theorem C6_degrade_to_none_witness :
    (classBatteryLevel false [viperWiredDev] stormWorld).1 = QueryRes.value none :=
  C6_degrade_to_none.2

lemma deviceMatches_7a_iff (d : Nat) :
    deviceMatches d 0x7a = true ↔ (d = 0x7a ∨ d = 0x7b) := by
  simp [deviceMatches, confirmedDevicePairs]
  omega

lemma find_matches_7b (l : List Nat) (hna : 0x7a ∉ l) (hb : (0x7b : Nat) ∈ l) :
    l.find? (fun d => deviceMatches d 0x7a) = some 0x7b := by
  induction l with
  | nil => cases hb
  | cons a rest ih =>
    by_cases ha : deviceMatches a 0x7a = true
    · rcases (deviceMatches_7a_iff a).mp ha with h | h
      · exact absurd (h ▸ List.mem_cons_self a rest) hna
      · subst h
        simp [List.find?, ha]
    · have ha2 : deviceMatches a 0x7a = false := by
        simpa using ha
      have hb2 : (0x7b : Nat) ∈ rest := by
        rcases List.mem_cons.mp hb with h | h
        · exact absurd ((deviceMatches_7a_iff a).mpr (Or.inr h.symm)) ha
        · exact h
      have ihx := ih (fun h => hna (List.mem_cons_of_mem a h)) hb2
      simpa [List.find?, ha2] using ihx

/-- C7: when an exact query for product id 0x007A finds the device in the
cache but the worker answers null, and the fresh scan after cache
invalidation no longer contains 0x007A but does contain 0x007B, the service
re-resolves the target against 0x007B through the confirmed identity pair
and issues the battery query against it — the query result is the answer
the worker gives for 0x007B, not an immediate none. -/
theorem C7_identity_pairing (s : SvcState) (l0 l2 : List Nat)
    (r2 : Option BatteryResult) (restW : List (Option BatteryResult))
    (restS : List (List Nat))
    (hc : s.cache = some l0) (h0 : (0x7a : Nat) ∈ l0)
    (hw : s.workerReplies = none :: r2 :: restW)
    (hs : s.scans = l2 :: restS)
    (hna : (0x7a : Nat) ∉ l2) (hb : (0x7b : Nat) ∈ l2) :
    (getBatteryInfo 0x7a s).1 = r2 ∧
    (getBatteryInfo 0x7a s).2.issued = s.issued ++ [0x7a, 0x7b] := by
  obtain ⟨cch, scn, wreplies, iss⟩ := s
  dsimp only at hc hw hs ⊢
  subst hc
  subst hw
  subst hs
  have hfind := find_matches_7b l2 hna hb
  constructor <;>
    simp [getBatteryInfo, svcFindDevice, svcGetAvailableDevices, svcInvalidate,
      svcQueryWorker, h0, hfind]

/-- Witness for C7: the cache holds 0x007A, the worker answers null once,
the fresh scan holds only 0x007B, and the retry returns the 0x007B reading
after issuing battery queries for exactly 0x007A then 0x007B. -/
theorem C7_identity_pairing_witness :
    (getBatteryInfo 0x7a
        { cache := some [0x7a], scans := [[0x7b]],
          workerReplies := [none, some
            { batteryLevel := some 500, isCharging := false,
              deviceName := "Razer Viper Ultimate (Wireless)", productId := 0x7b }],
          issued := [] }).1 =
      some { batteryLevel := some 500, isCharging := false,
             deviceName := "Razer Viper Ultimate (Wireless)", productId := 0x7b } ∧
    (getBatteryInfo 0x7a
        { cache := some [0x7a], scans := [[0x7b]],
          workerReplies := [none, some
            { batteryLevel := some 500, isCharging := false,
              deviceName := "Razer Viper Ultimate (Wireless)", productId := 0x7b }],
          issued := [] }).2.issued = [] ++ [0x7a, 0x7b] := by
  exact C7_identity_pairing
    { cache := some [0x7a], scans := [[0x7b]],
      workerReplies := [none, some
        { batteryLevel := some 500, isCharging := false,
          deviceName := "Razer Viper Ultimate (Wireless)", productId := 0x7b }],
      issued := [] }
    [0x7a] [0x7b] (some
      { batteryLevel := some 500, isCharging := false,
        deviceName := "Razer Viper Ultimate (Wireless)", productId := 0x7b })
    [] [] rfl (by decide) rfl rfl (by decide) (by decide)

/-- C8: with an unpopulated cache and no scan pending, the first caller of
getAllRazerDevices starts exactly one enumeration and awaits it, and a
second caller entering before any scan completes attaches to the same
pending scan instead of starting another: after both atomic entry sections
the number of scans ever started has grown by exactly one and both callers
await the same scan.  The two interleavings of the two callers are the same
computation applied twice, so this covers both orders. -/
theorem C8_single_inflight_scan (s0 : EnumCoordState)
    (hcache : s0.cache = none) (hinflight : s0.inflight = none) :
    (enumEntryStep s0).1 = CallerPC.waiting s0.started ∧
    (enumEntryStep s0).2.started = s0.started + 1 ∧
    (enumEntryStep s0).2.inflight = some s0.started ∧
    (enumEntryStep (enumEntryStep s0).2).1 = CallerPC.waiting s0.started ∧
    (enumEntryStep (enumEntryStep s0).2).2 = (enumEntryStep s0).2 := by
  obtain ⟨cch, infl, st⟩ := s0
  dsimp only at hcache hinflight
  subst hcache
  subst hinflight
  simp [enumEntryStep]

/-- Witness for C8 from the fresh initial state. -/
theorem C8_single_inflight_scan_witness :
    (enumEntryStep { cache := none, inflight := none, started := 0 }).1 =
      CallerPC.waiting 0 ∧
    (enumEntryStep (enumEntryStep
        { cache := none, inflight := none, started := 0 }).2).1 =
      CallerPC.waiting 0 ∧
    (enumEntryStep (enumEntryStep
        { cache := none, inflight := none, started := 0 }).2).2.started = 1 := by
  have h := C8_single_inflight_scan
    { cache := none, inflight := none, started := 0 } rfl rfl
  refine ⟨h.1, h.2.2.2.1, ?_⟩
  rw [h.2.2.2.2, h.2.1]

/-- C9 counterexample: when the device opens but selectConfiguration
throws, the failure happens before the try block that owns the teardown, so
the session ends with the device handle still open and neither a release
nor a close ever performed — the claim requires release-then-close on every
exit path, including failures while opening, configuring or claiming. -/
theorem C9_counterexample :
    (sendRazerBatteryCommandSession selectFailOutcome).deviceOpen = true ∧
    (sendRazerBatteryCommandSession selectFailOutcome).threw = true ∧
    SEvent.released ∉ (sendRazerBatteryCommandSession selectFailOutcome).events ∧
    SEvent.closed ∉ (sendRazerBatteryCommandSession selectFailOutcome).events := by
  refine ⟨rfl, rfl, ?_, ?_⟩ <;> decide

/-- C9 as amended: once the device is opened, configured and the interface
claimed, the finally block releases the interface and then closes the
handle, in that order, on the exit paths of the command exchange itself —
success as well as write or read failure, with the body error still
propagating; but a failure while opening, selecting the configuration or
claiming the interface happens before the teardown scope (and a throwing
releaseInterface skips the close), so those paths can leave the handle
open. -/
theorem C9_session_teardown (o : USBOutcome)
    (ho : o.openOk = true) (hs : o.configIsNull = true → o.selectOk = true)
    (hc : o.claimOk = true) (hr : o.releaseOk = true) (hcl : o.closeOk = true) :
    (sendRazerBatteryCommandSession o).deviceOpen = false ∧
    (sendRazerBatteryCommandSession o).interfaceClaimed = false ∧
    [SEvent.released, SEvent.closed].isSuffixOf
      (sendRazerBatteryCommandSession o).events = true ∧
    (sendRazerBatteryCommandSession o).threw = !(o.writeOk && o.readOk) := by
  obtain ⟨op, cfg, sel, clm, w, r, rel, cls⟩ := o
  dsimp only at ho hs hc hr hcl
  subst ho
  subst hc
  subst hr
  subst hcl
  cases cfg with
  | true =>
    have hsel : sel = true := hs rfl
    subst hsel
    cases w <;> cases r <;> decide
  | false =>
    cases sel <;> cases w <;> cases r <;> decide

/-- Witness for C9 as amended: a fully successful session releases and then
closes, and a session whose read fails still releases and closes before the
error propagates. -/
theorem C9_session_teardown_witness :
    ((sendRazerBatteryCommandSession
        { openOk := true, configIsNull := true, selectOk := true, claimOk := true,
          writeOk := true, readOk := true, releaseOk := true, closeOk := true }).deviceOpen = false ∧
      [SEvent.released, SEvent.closed].isSuffixOf
        (sendRazerBatteryCommandSession
          { openOk := true, configIsNull := true, selectOk := true, claimOk := true,
            writeOk := true, readOk := true, releaseOk := true, closeOk := true }).events = true) ∧
    ((sendRazerBatteryCommandSession
        { openOk := true, configIsNull := false, selectOk := true, claimOk := true,
          writeOk := true, readOk := false, releaseOk := true, closeOk := true }).threw = true ∧
      [SEvent.released, SEvent.closed].isSuffixOf
        (sendRazerBatteryCommandSession
          { openOk := true, configIsNull := false, selectOk := true, claimOk := true,
            writeOk := true, readOk := false, releaseOk := true, closeOk := true }).events = true) := by
  constructor
  · have h := C9_session_teardown
      { openOk := true, configIsNull := true, selectOk := true, claimOk := true,
        writeOk := true, readOk := true, releaseOk := true, closeOk := true }
      rfl (fun _ => rfl) rfl rfl rfl
    exact ⟨h.1, h.2.2.1⟩
  · have h := C9_session_teardown
      { openOk := true, configIsNull := false, selectOk := true, claimOk := true,
        writeOk := true, readOk := false, releaseOk := true, closeOk := true }
      rfl (fun hx => by cases hx) rfl rfl rfl
    exact ⟨h.2.2.2, h.2.2.1⟩

lemma products_keys_nodup : (RAZER_PRODUCTS.map Prod.fst).Nodup := by decide

lemma eq_of_fst_eq_of_keys_nodup (l : List (Nat × DeviceInfo))
    (hnd : (l.map Prod.fst).Nodup) (x y : Nat × DeviceInfo)
    (hx : x ∈ l) (hy : y ∈ l) (hxy : x.1 = y.1) : x = y := by
  induction l with
  | nil => cases hx
  | cons a rest ih =>
    rw [List.map_cons, List.nodup_cons] at hnd
    rcases List.mem_cons.mp hx with hx1 | hx1 <;>
      rcases List.mem_cons.mp hy with hy1 | hy1
    · rw [hx1, hy1]
    · exfalso
      apply hnd.1
      rw [hx1] at hxy
      rw [hxy]
      exact List.mem_map_of_mem Prod.fst hy1
    · exfalso
      apply hnd.1
      rw [hy1] at hxy
      rw [← hxy]
      exact List.mem_map_of_mem Prod.fst hx1
    · exact ih hnd.2 hx1 hy1

lemma lookup_not_wireless (pid : Nat) (info : DeviceInfo)
    (h : lookupProduct pid = some info) (hw : info.hasWireless = false) :
    WIRELESS_DEVICES.contains pid = false := by
  rcases hfe : RAZER_PRODUCTS.find? (fun e => e.1 == pid) with _ | e
  · rw [lookupProduct, hfe] at h
    cases h
  · rw [lookupProduct, hfe] at h
    have hinfo : e.2 = info := by
      simpa using h
    have hmem : e ∈ RAZER_PRODUCTS := List.mem_of_find?_eq_some hfe
    have hkey : e.1 = pid := by
      have := List.find?_some hfe
      simpa using this
    by_contra hcon
    have hcon2 : WIRELESS_DEVICES.contains pid = true := by
      cases hx : WIRELESS_DEVICES.contains pid
      · exact absurd hx hcon
      · rfl
    have hpmem : pid ∈ WIRELESS_DEVICES := by
      simpa using hcon2
    rw [WIRELESS_DEVICES] at hpmem
    rcases List.mem_map.mp hpmem with ⟨x, hxmem, hxpid⟩
    rcases List.mem_filter.mp hxmem with ⟨hxprod, hxw⟩
    have hxe : x = e := eq_of_fst_eq_of_keys_nodup RAZER_PRODUCTS
      products_keys_nodup x e hxprod hmem (by rw [hxpid, hkey])
    rw [hxe, hinfo, hw] at hxw
    cases hxw

/-- C10: a discovered device whose catalogue entry has hasWireless false is
kept by the enumeration filter (so it sits in the cache and is selectable
by an exact-id query), yet a battery query against it returns none
immediately, leaving the world state untouched: no attempt is consumed and
no re-enumeration happens, because getBatteryFromDevice rejects it against
the WIRELESS_DEVICES set before any USB session is opened. -/
theorem C10_non_wireless_guard (pid : Nat) (info : DeviceInfo) (s : QState)
    (l : List RawUSBDevice) (u : RawUSBDevice)
    (hlk : lookupProduct pid = some info) (hw : info.hasWireless = false)
    (hu : u ∈ l) (hv : u.vendorId = 0x1532) (hp : u.productId = pid) :
    WIRELESS_DEVICES.contains pid = false ∧
    ({ productId := pid, deviceName := info.name, hasWireless := false,
       isKeyboard := isKeyboardDevice pid } : RDevice) ∈ enumerateRazer l ∧
    getBatteryLevelTarget pid
      [{ productId := pid, deviceName := info.name, hasWireless := false,
         isKeyboard := isKeyboardDevice pid }] s = (QueryRes.value none, s) := by
  have hc := lookup_not_wireless pid info hlk hw
  have hm : pid ∉ WIRELESS_DEVICES := by
    simpa using hc
  refine ⟨hc, ?_, ?_⟩
  · refine List.mem_filterMap.mpr ⟨u, hu, ?_⟩
    simp [hv, hp, hlk, hw]
  · simp [getBatteryLevelTarget, List.find?, getBatteryFromDevice, hm]

/-- Witness for C10 at the Razer Viper (0x0078, a wired-only mouse). -/
theorem C10_non_wireless_guard_witness :
    WIRELESS_DEVICES.contains 0x0078 = false ∧
    ({ productId := 0x0078, deviceName := "Razer Viper", hasWireless := false,
       isKeyboard := isKeyboardDevice 0x0078 } : RDevice) ∈
      enumerateRazer [{ vendorId := 0x1532, productId := 0x0078 }] ∧
    getBatteryLevelTarget 0x0078
      [{ productId := 0x0078, deviceName := "Razer Viper", hasWireless := false,
         isKeyboard := isKeyboardDevice 0x0078 }]
      { attempts := [], scans := [], attemptCount := 0, enumCount := 0 } =
      (QueryRes.value none,
        { attempts := [], scans := [], attemptCount := 0, enumCount := 0 }) := by
  exact C10_non_wireless_guard 0x0078
    { name := "Razer Viper", transactionId := 0x3f, hasWireless := false }
    { attempts := [], scans := [], attemptCount := 0, enumCount := 0 }
    [{ vendorId := 0x1532, productId := 0x0078 }]
    { vendorId := 0x1532, productId := 0x0078 }
    rfl rfl (List.mem_cons_self _ _) rfl rfl

end RazerBattery
